import Mathlib

/-!
Verification of the apartment-price checker script (`script.py`).

The script is a linear asynchronous program: it parses one CLI argument
(a URL), reads the `GOOGLE_API_KEY` environment variable, builds a model
client, a browser profile, a browser and an agent, runs the agent once,
sleeps 10 seconds, extracts the final result from the run history and
reports it to two logging sinks (a console logger and a results-file
logger).  We embed the `main` coroutine (as `scriptMain`, since Lean reserves the name `main`) as a pure function from its inputs — the URL,
the environment value of the credential, and the outcome of the opaque
external agent run — to a trace of observable events together with the
way the process terminates.
-/

/-- Python truthiness of an `Optional[str]` value: `None` and the empty
string are falsy, every other string is truthy.  Used by the script both
for the `if not api_key` check (line 47) and for `if final_result`
(line 114). -/
def pyTruthy : Option String → Bool
  | none => false
  | some s => !s.isEmpty

/-- Logging levels used by the script (`info` and `warning` calls). -/
inductive Level
  | info
  | warning
deriving DecidableEq, Repr

/-- Observable events of one invocation of `main`, in program order:
construction of the model client, the browser profile, the browser and
the agent (lines 51–97), plain `print` calls, the single `agent.run()`
call (line 104), the fixed `asyncio.sleep` (line 108), and records
handed to the console logger (`logger`, a `StreamHandler`) and to the
results-file logger (`file_logger`, a `FileHandler`). -/
inductive Event
  | constructLLM (model : String)
  | constructBrowserProfile
  | constructBrowser
  | constructAgent (task : String)
  | print (msg : String)
  | agentRunCall
  | sleep (seconds : Nat)
  | console (lvl : Level) (msg : String)
  | fileRec (lvl : Level) (msg : String)
deriving DecidableEq, Repr

/-- The two ways `main` can terminate abnormally: the `ValueError`
raised when the credential is falsy (line 48), and an exception
propagating out of `agent.run()` (line 104), which the script never
catches. -/
inductive MainError
  | missingKey
  | agentRaised
deriving DecidableEq, Repr

/-- Result of one invocation of `main`: the trace of observable events
that happened before control left `main`, and the terminal outcome
(`none` = normal return, hence process exit code 0). -/
structure RunOutcome where
  events : List Event
  error : Option MainError
deriving DecidableEq, Repr

/-- Text of the f-string template (lines 73–94) before the interpolated
URL. -/
def taskPromptHead : String :=
  "Zadanie: Analiza cen mieszkań na stronie dewelopera\n\n1. Odwiedź stronę: "

/-- Text of the f-string template (lines 73–94) after the interpolated
URL. -/
def taskPromptTail : String :=
  "\n\n2. Cel analizy: Znajdź konkretne ceny mieszkań w ofercie.\n\n3. Kryteria akceptacji cen:\n   ✓ Ceny muszą być dokładne (np. \x27450 000 PLN\x27, \x27500 000 złotych\x27)\n   ✗ NIE akceptuj zakresów cenowych (np. \x27ceny od 500 000 PLN\x27)\n   ✗ NIE akceptuj wezwań do kontaktu (np. \x27zapytaj o cenę\x27, \x27wyślij zapytanie\x27, \x27skontaktuj się\x27)\n\n4. Gdzie szukać cen:\n   - W linkach do konkretnych ofert\n   - W tabelach z ofertami\n   - W opisach mieszkań\n   - W cennikach\n\n5. Format odpowiedzi:\n   - Jeśli znaleziono konkretne ceny: \x27Dostępne ceny mieszkań\x27\n   - Jeśli nie znaleziono konkretnych cen: \x27Brak dostępnych cen mieszkań\x27\n\nUwaga: Skupiaj się tylko na konkretnych, jawnie podanych cenach mieszkań."

/-- The f-string template of lines 73–94, with the URL interpolated at
the position `Odwiedź stronę: {url_to_check}`. -/
def taskPrompt (url : String) : String :=
  taskPromptHead ++ url ++ taskPromptTail

/-- Events of lines 51–104: the four constructions, the two status
prints of lines 100–101, and the single `agent.run()` call. -/
def preRunEvents (url : String) : List Event :=
  [ Event.constructLLM "gemini-2.5-flash",
    Event.constructBrowserProfile,
    Event.constructBrowser,
    Event.constructAgent (taskPrompt url),
    Event.print "\nStarting analysis - browser window should open with highlighted elements...",
    Event.print "Looking for price information - this may take a few moments...",
    Event.agentRunCall ]

/-- Reporter events of the truthy branch (lines 114–121): one record to
the results-file sink, three records to the console sink. -/
def successReport (url result : String) : List Event :=
  [ Event.fileRec Level.info ("URL: " ++ url ++ " - Result: " ++ result),
    Event.console Level.info ("📄 Result: " ++ result),
    Event.console Level.info "✅ Task completed",
    Event.console Level.info "✅ Successfully" ]

/-- Reporter events of the falsy branch (lines 122–127): one warning
record to the results-file sink, one warning record to the console
sink. -/
def warningReport (url : String) : List Event :=
  [ Event.fileRec Level.warning
      ("URL: " ++ url ++ " - Result: Brak dostępnych cen mieszkań"),
    Event.console Level.warning "❌ Task failed" ]

/-- Pure embedding of `async def main()` (lines 38–127).  Inputs: the
positional CLI argument `url`, the environment value of
`GOOGLE_API_KEY` (`none` when unset), and the outcome of the opaque
external `agent.run()` call — either an exception (`Except.error`) or a
history whose `final_result()` is the given `Option String`.  The events
before the `agent.run()` call are emitted even when the run raises; the
sleep, the result extraction and the reporting happen only when the run
returns. -/
def scriptMain (url : String) (apiKey : Option String)
    (agent : Except Unit (Option String)) : RunOutcome :=
  if !pyTruthy apiKey then
    { events := [], error := some MainError.missingKey }
  else
    match agent with
    | Except.error _ =>
      { events := preRunEvents url, error := some MainError.agentRaised }
    | Except.ok finalResult =>
      let afterRun : List Event := preRunEvents url ++
        [ Event.print "\nAnalysis complete - keeping browser window open for 10 seconds to view highlights...",
          Event.sleep 10 ]
      if pyTruthy finalResult then
        { events := afterRun ++ successReport url (finalResult.getD ""),
          error := none }
      else
        { events := afterRun ++ warningReport url, error := none }

/-- Boolean substring test on character lists: does `need` occur
contiguously inside `hay`? -/
def listOccurs (need hay : List Char) : Bool :=
  match hay with
  | [] => need.isEmpty
  | _ :: t => need.isPrefixOf hay || listOccurs need t

/-- Boolean substring test on strings. -/
def occursIn (need hay : String) : Bool :=
  listOccurs need.data hay.data

/-- Does some record handed to the console logger contain `need` as a
substring? -/
def consoleHas (events : List Event) (need : String) : Bool :=
  events.any fun e =>
    match e with
    | Event.console _ m => occursIn need m
    | _ => false

/-- Does some record handed to the results-file logger contain `need`
as a substring? -/
def fileHas (events : List Event) (need : String) : Bool :=
  events.any fun e =>
    match e with
    | Event.fileRec _ m => occursIn need m
    | _ => false

/-- Does some single console record contain both `a` and `b` as
substrings? -/
def consoleHasBoth (events : List Event) (a b : String) : Bool :=
  events.any fun e =>
    match e with
    | Event.console _ m => occursIn a m && occursIn b m
    | _ => false

/-- Does some single results-file record contain both `a` and `b` as
substrings? -/
def fileHasBoth (events : List Event) (a b : String) : Bool :=
  events.any fun e =>
    match e with
    | Event.fileRec _ m => occursIn a m && occursIn b m
    | _ => false

/-- Event classifiers used by the trace-shape claims. -/
def isAgentRun : Event → Bool
  | Event.agentRunCall => true
  | _ => false

/-- Is the event a record handed to the results-file logger? -/
def isFileSink : Event → Bool
  | Event.fileRec _ _ => true
  | _ => false

/-- Is the event a record handed to either logging sink (the reporter
phase of the script)? -/
def isReport : Event → Bool
  | Event.fileRec _ _ => true
  | Event.console _ _ => true
  | _ => false

/-- Is the event the construction of one of the model client, the
browser profile, the browser, or the agent? -/
def isConstruction : Event → Bool
  | Event.constructLLM _ => true
  | Event.constructBrowserProfile => true
  | Event.constructBrowser => true
  | Event.constructAgent _ => true
  | _ => false

/-- Mode string passed to `logging.FileHandler` on line 26 of the
script. -/
def fileHandlerMode : String := "w"

/-- Modelled from the documented contract of the external
`logging.FileHandler` collaborator: opening the stream in mode `w`
truncates the file, any other mode keeps the previous contents. -/
def openLogFile (mode : String) (previous : List String) : List String :=
  if mode = "w" then [] else previous

/-- Contents of the results-log file after a run: the file is opened
with `fileHandlerMode` at handler construction (module level, before
`main` runs), then the records of the current run are appended. -/
def runFileContents (previous records : List String) : List String :=
  openLogFile fileHandlerMode previous ++ records

example : pyTruthy (some "450 000 PLN") = true := by decide
example : pyTruthy (some "") = false := by decide
example : pyTruthy none = false := by decide
example : occursIn "abc" "xxabcyy" = true := by decide
example : occursIn "abd" "xxabcyy" = false := by decide

theorem strData_append (a b : String) : (a ++ b).data = a.data ++ b.data := by
  cases a
  cases b
  rfl

theorem strAppend_assoc (a b c : String) : a ++ b ++ c = a ++ (b ++ c) :=
  String.ext (by
    rw [strData_append, strData_append, strData_append, strData_append,
      List.append_assoc])

theorem isPrefixOf_append_self (l r : List Char) : l.isPrefixOf (l ++ r) = true := by
  induction l with
  | nil => cases r <;> rfl
  | cons a t ih => simp [List.isPrefixOf, ih]

theorem listOccurs_nil_need (hay : List Char) : listOccurs [] hay = true := by
  cases hay <;> simp [listOccurs, List.isPrefixOf]

theorem listOccurs_append (need pre post : List Char) :
    listOccurs need (pre ++ (need ++ post)) = true := by
  induction pre with
  | nil =>
    cases need with
    | nil => simpa using listOccurs_nil_need post
    | cons n ns =>
      have h : (n :: ns).isPrefixOf ((n :: ns) ++ post) = true :=
        isPrefixOf_append_self (n :: ns) post
      simp only [List.nil_append, List.cons_append, listOccurs]
      simp only [List.cons_append] at h
      simp [h]
  | cons p ps ih =>
    simp only [List.cons_append, listOccurs, List.append_eq, ih, Bool.or_true]

theorem occursIn_middle (need pre post : String) :
    occursIn need (pre ++ need ++ post) = true := by
  unfold occursIn
  rw [strData_append, strData_append, List.append_assoc]
  exact listOccurs_append need.data pre.data post.data

theorem occursIn_right (need pre : String) :
    occursIn need (pre ++ need) = true := by
  unfold occursIn
  rw [strData_append]
  have := listOccurs_append need.data pre.data []
  simpa using this

/-- C1 counterexample: with URL `https://example-developer.pl/oferta`,
a present credential and agent result `450 000 PLN` (truthy), the
results-file sink does receive a record containing both the result
string and the URL, but no record handed to the console sink contains
the URL, contrary to the claim that both sinks receive such a record:
the console lines are `📄 Result: 450 000 PLN`, `✅ Task completed` and
`✅ Successfully`. -/
theorem c1_console_lacks_url_counterexample :
    pyTruthy (some "450 000 PLN") = true ∧
    fileHasBoth (scriptMain "https://example-developer.pl/oferta" (some "AIzaTest")
        (Except.ok (some "450 000 PLN"))).events
      "450 000 PLN" "https://example-developer.pl/oferta" = true ∧
    consoleHasBoth (scriptMain "https://example-developer.pl/oferta" (some "AIzaTest")
        (Except.ok (some "450 000 PLN"))).events
      "450 000 PLN" "https://example-developer.pl/oferta" = false := by
  decide

/-- C1 (amended): if the run returns a truthy final result, the
results-file sink receives the record
`URL: <url> - Result: <result>` — a single record containing both the
exact result string and the original URL — and the console sink
receives a record containing the exact result string (`📄 Result:
<result>`), though the console record does not contain the URL. -/
theorem c1_success_reported (url k : String) (r : Option String)
    (hk : pyTruthy (some k) = true) (hr : pyTruthy r = true) :
    Event.fileRec Level.info ("URL: " ++ url ++ " - Result: " ++ r.getD "")
      ∈ (scriptMain url (some k) (Except.ok r)).events ∧
    fileHasBoth (scriptMain url (some k) (Except.ok r)).events (r.getD "") url = true ∧
    consoleHas (scriptMain url (some k) (Except.ok r)).events (r.getD "") = true := by
  have h1 := occursIn_right (r.getD "") ("URL: " ++ url ++ " - Result: ")
  have h2 : occursIn url ("URL: " ++ url ++ " - Result: " ++ r.getD "") = true := by
    have hm : ("URL: " ++ url ++ " - Result: " ++ r.getD "")
        = "URL: " ++ url ++ (" - Result: " ++ r.getD "") := by
      apply String.ext
      simp [strData_append, List.append_assoc]
    rw [hm]
    exact occursIn_middle url "URL: " (" - Result: " ++ r.getD "")
  have h3 := occursIn_right (r.getD "") "📄 Result: "
  refine ⟨?_, ?_, ?_⟩
  · simp [scriptMain, hk, hr, preRunEvents, successReport]
  · simp [fileHasBoth, scriptMain, hk, hr, preRunEvents, successReport, h1, h2]
  · simp [consoleHas, scriptMain, hk, hr, preRunEvents, successReport, h3]

/-- Witness for C1 at the spec example: URL
`https://example-developer.pl/oferta`, agent result `450 000 PLN`. -/
theorem c1_success_reported_witness :
    (pyTruthy (some "AIzaTest") = true ∧ pyTruthy (some "450 000 PLN") = true) ∧
    (Event.fileRec Level.info
        ("URL: " ++ "https://example-developer.pl/oferta" ++ " - Result: "
          ++ (some "450 000 PLN").getD "")
      ∈ (scriptMain "https://example-developer.pl/oferta" (some "AIzaTest")
          (Except.ok (some "450 000 PLN"))).events ∧
    fileHasBoth (scriptMain "https://example-developer.pl/oferta" (some "AIzaTest")
        (Except.ok (some "450 000 PLN"))).events
      ((some "450 000 PLN").getD "") "https://example-developer.pl/oferta" = true ∧
    consoleHas (scriptMain "https://example-developer.pl/oferta" (some "AIzaTest")
        (Except.ok (some "450 000 PLN"))).events
      ((some "450 000 PLN").getD "") = true) :=
  ⟨⟨by decide, by decide⟩,
    c1_success_reported "https://example-developer.pl/oferta" "AIzaTest"
      (some "450 000 PLN") (by decide) (by decide)⟩

/-- C2 counterexample: with a present credential and a falsy agent
result (`none`), the results-file sink receives a record containing the
fixed literal `Brak dostępnych cen mieszkań`, but no record handed to
the console sink contains that literal, contrary to the claim that both
sinks receive it: the only console record is `❌ Task failed`. -/
theorem c2_console_lacks_literal_counterexample :
    pyTruthy none = false ∧
    fileHas (scriptMain "https://example-developer.pl/oferta" (some "AIzaTest")
        (Except.ok none)).events "Brak dostępnych cen mieszkań" = true ∧
    consoleHas (scriptMain "https://example-developer.pl/oferta" (some "AIzaTest")
        (Except.ok none)).events "Brak dostępnych cen mieszkań" = false := by
  decide

/-- C2 (amended): if the run returns a falsy final result, the
results-file sink receives a record containing the fixed literal
`Brak dostępnych cen mieszkań`, the console sink receives the fixed
warning `❌ Task failed`, and neither sink depends on the raw agent
output: the whole run outcome equals the one for result `none`. -/
theorem c2_warning_reported (url k : String) (r : Option String)
    (hk : pyTruthy (some k) = true) (hr : pyTruthy r = false) :
    fileHas (scriptMain url (some k) (Except.ok r)).events
      "Brak dostępnych cen mieszkań" = true ∧
    Event.console Level.warning "❌ Task failed"
      ∈ (scriptMain url (some k) (Except.ok r)).events ∧
    scriptMain url (some k) (Except.ok r) = scriptMain url (some k) (Except.ok none) := by
  have hlit : (" - Result: Brak dostępnych cen mieszkań" : String)
      = " - Result: " ++ "Brak dostępnych cen mieszkań" := by decide
  have hmsg : ("URL: " ++ url ++ " - Result: Brak dostępnych cen mieszkań")
      = ("URL: " ++ url ++ " - Result: ") ++ "Brak dostępnych cen mieszkań" := by
    apply String.ext
    rw [hlit]
    simp [strData_append, List.append_assoc]
  have h1 := occursIn_right "Brak dostępnych cen mieszkań" ("URL: " ++ url ++ " - Result: ")
  rw [← hmsg] at h1
  refine ⟨?_, ?_, ?_⟩
  · simp [fileHas, scriptMain, hk, hr, preRunEvents, warningReport, h1]
  · simp [scriptMain, hk, hr, preRunEvents, warningReport]
  · simp [scriptMain, hk, hr, show pyTruthy none = false from rfl]

/-- Witness for C2 at agent result `some ""` (empty, hence falsy). -/
theorem c2_warning_reported_witness :
    (pyTruthy (some "AIzaTest") = true ∧ pyTruthy (some "") = false) ∧
    (fileHas (scriptMain "https://example-developer.pl/oferta" (some "AIzaTest")
        (Except.ok (some ""))).events "Brak dostępnych cen mieszkań" = true ∧
    Event.console Level.warning "❌ Task failed"
      ∈ (scriptMain "https://example-developer.pl/oferta" (some "AIzaTest")
          (Except.ok (some ""))).events ∧
    scriptMain "https://example-developer.pl/oferta" (some "AIzaTest") (Except.ok (some ""))
      = scriptMain "https://example-developer.pl/oferta" (some "AIzaTest") (Except.ok none)) :=
  ⟨⟨by decide, by decide⟩,
    c2_warning_reported "https://example-developer.pl/oferta" "AIzaTest" (some "")
      (by decide) (by decide)⟩

/-- C3: if the `GOOGLE_API_KEY` environment value is unset or empty
(falsy), `main` raises `ValueError` (modelled as the `missingKey`
outcome) and emits no event at all — in particular no model-client,
browser-profile, browser or agent construction happens. -/
theorem c3_missing_key_fails_fast (url : String) (apiKey : Option String)
    (agent : Except Unit (Option String)) (hk : pyTruthy apiKey = false) :
    (scriptMain url apiKey agent).error = some MainError.missingKey ∧
    (scriptMain url apiKey agent).events = [] ∧
    (scriptMain url apiKey agent).events.countP isConstruction = 0 := by
  simp [scriptMain, hk]

/-- Witness for C3 with the variable unset (`none`). -/
theorem c3_missing_key_fails_fast_witness :
    pyTruthy (none : Option String) = false ∧
    ((scriptMain "https://example-developer.pl/oferta" none (Except.ok none)).error
        = some MainError.missingKey ∧
      (scriptMain "https://example-developer.pl/oferta" none (Except.ok none)).events = [] ∧
      (scriptMain "https://example-developer.pl/oferta" none
          (Except.ok none)).events.countP isConstruction = 0) :=
  ⟨by decide,
    c3_missing_key_fails_fast "https://example-developer.pl/oferta" none
      (Except.ok none) (by decide)⟩

/-- C4: for every non-empty URL, with the credential present, the task
string handed to the agent construction contains the URL verbatim at
the documented position: the substring `Odwiedź stronę: <url>` occurs
in the prompt. -/
theorem c4_prompt_contains_url (url : String) (apiKey : Option String)
    (agent : Except Unit (Option String)) (_hu : url ≠ "")
    (hk : pyTruthy apiKey = true) :
    Event.constructAgent (taskPrompt url) ∈ (scriptMain url apiKey agent).events ∧
    occursIn ("Odwiedź stronę: " ++ url) (taskPrompt url) = true := by
  constructor
  · cases agent with
    | error e => simp [scriptMain, hk, preRunEvents]
    | ok r =>
      by_cases hr : pyTruthy r = true
      · simp [scriptMain, hk, hr, preRunEvents]
      · simp only [Bool.not_eq_true] at hr
        simp [scriptMain, hk, hr, preRunEvents]
  · have hhead : taskPromptHead
        = "Zadanie: Analiza cen mieszkań na stronie dewelopera\n\n1. "
          ++ "Odwiedź stronę: " := by
      decide
    have hsplit : taskPrompt url
        = "Zadanie: Analiza cen mieszkań na stronie dewelopera\n\n1. "
          ++ ("Odwiedź stronę: " ++ url) ++ taskPromptTail := by
      apply String.ext
      simp [taskPrompt, hhead, strData_append, List.append_assoc]
    rw [hsplit]
    exact occursIn_middle _ _ _

/-- Witness for C4 at the spec example URL. -/
theorem c4_prompt_contains_url_witness :
    ("https://example-developer.pl/oferta" ≠ "" ∧ pyTruthy (some "AIzaTest") = true) ∧
    (Event.constructAgent (taskPrompt "https://example-developer.pl/oferta")
        ∈ (scriptMain "https://example-developer.pl/oferta" (some "AIzaTest")
            (Except.ok none)).events ∧
      occursIn ("Odwiedź stronę: " ++ "https://example-developer.pl/oferta")
        (taskPrompt "https://example-developer.pl/oferta") = true) :=
  ⟨⟨by decide, by decide⟩,
    c4_prompt_contains_url "https://example-developer.pl/oferta" (some "AIzaTest")
      (Except.ok none) (by decide) (by decide)⟩

/-- C5: the results-file handler is opened in overwrite mode (`w`,
line 26), so the file contents after a run are exactly the records of
the current run: nothing of the previous contents survives, whatever
they were. -/
theorem c5_results_file_truncated (previous records : List String) :
    runFileContents previous records = records := by
  simp [runFileContents, openLogFile, fileHandlerMode]

/-- C6: an exception raised by the agent run is never caught: the
process terminates with the propagated exception, the run entry point
was called exactly once (no retry), and no record was handed to either
logging sink (no partial result from the reporter). -/
theorem c6_agent_exception_propagates (url k : String)
    (hk : pyTruthy (some k) = true) :
    (scriptMain url (some k) (Except.error ())).error = some MainError.agentRaised ∧
    (scriptMain url (some k) (Except.error ())).events.countP isReport = 0 ∧
    (scriptMain url (some k) (Except.error ())).events.countP isAgentRun = 1 := by
  simp [scriptMain, hk, preRunEvents, isReport, isAgentRun,
    List.countP_cons, List.countP_nil]

/-- Witness for C6. -/
theorem c6_agent_exception_propagates_witness :
    pyTruthy (some "AIzaTest") = true ∧
    ((scriptMain "https://example-developer.pl/oferta" (some "AIzaTest")
        (Except.error ())).error = some MainError.agentRaised ∧
      (scriptMain "https://example-developer.pl/oferta" (some "AIzaTest")
          (Except.error ())).events.countP isReport = 0 ∧
      (scriptMain "https://example-developer.pl/oferta" (some "AIzaTest")
          (Except.error ())).events.countP isAgentRun = 1) :=
  ⟨by decide,
    c6_agent_exception_propagates "https://example-developer.pl/oferta" "AIzaTest"
      (by decide)⟩

/-- C7: a run with a falsy final result is not an error: `main` returns
normally (outcome `none`, hence process exit code 0) after handing a
warning record to each sink. -/
theorem c7_no_result_normal_exit (url k : String) (r : Option String)
    (hk : pyTruthy (some k) = true) (hr : pyTruthy r = false) :
    (scriptMain url (some k) (Except.ok r)).error = none ∧
    Event.console Level.warning "❌ Task failed"
      ∈ (scriptMain url (some k) (Except.ok r)).events ∧
    Event.fileRec Level.warning ("URL: " ++ url ++ " - Result: Brak dostępnych cen mieszkań")
      ∈ (scriptMain url (some k) (Except.ok r)).events := by
  simp [scriptMain, hk, hr, preRunEvents, warningReport]

/-- Witness for C7 at agent result `none`. -/
theorem c7_no_result_normal_exit_witness :
    (pyTruthy (some "AIzaTest") = true ∧ pyTruthy (none : Option String) = false) ∧
    ((scriptMain "https://example-developer.pl/oferta" (some "AIzaTest")
        (Except.ok none)).error = none ∧
      Event.console Level.warning "❌ Task failed"
        ∈ (scriptMain "https://example-developer.pl/oferta" (some "AIzaTest")
            (Except.ok none)).events ∧
      Event.fileRec Level.warning
          ("URL: " ++ "https://example-developer.pl/oferta"
            ++ " - Result: Brak dostępnych cen mieszkań")
        ∈ (scriptMain "https://example-developer.pl/oferta" (some "AIzaTest")
            (Except.ok none)).events) :=
  ⟨⟨by decide, by decide⟩,
    c7_no_result_normal_exit "https://example-developer.pl/oferta" "AIzaTest" none
      (by decide) (by decide)⟩

/-- C8: with the credential present and a completing run, the agent run
entry point appears exactly once in the trace, and the trace splits as
`l₁ ++ sleep 10 :: l₂` where the run call is in `l₁`, no sink record is
in `l₁`, and everything after the fixed 10-second sleep is reporting —
regardless of whether a qualifying result was found. -/
theorem c8_run_once_sleep_before_report (url k : String) (r : Option String)
    (hk : pyTruthy (some k) = true) :
    (scriptMain url (some k) (Except.ok r)).events.countP isAgentRun = 1 ∧
    ∃ l₁ l₂, (scriptMain url (some k) (Except.ok r)).events = l₁ ++ Event.sleep 10 :: l₂ ∧
      Event.agentRunCall ∈ l₁ ∧ l₁.countP isReport = 0 ∧ l₂.all isReport = true := by
  by_cases hr : pyTruthy r = true
  · refine ⟨?_, preRunEvents url ++
      [Event.print "\nAnalysis complete - keeping browser window open for 10 seconds to view highlights..."],
      successReport url (r.getD ""), ?_, ?_, ?_, ?_⟩
    · simp [scriptMain, hk, hr, preRunEvents, successReport, isAgentRun,
        List.countP_cons, List.countP_append, List.countP_nil]
    · simp [scriptMain, hk, hr, preRunEvents, successReport]
    · simp [preRunEvents]
    · simp [preRunEvents, isReport, List.countP_cons, List.countP_append, List.countP_nil]
    · simp [successReport, isReport]
  · simp only [Bool.not_eq_true] at hr
    refine ⟨?_, preRunEvents url ++
      [Event.print "\nAnalysis complete - keeping browser window open for 10 seconds to view highlights..."],
      warningReport url, ?_, ?_, ?_, ?_⟩
    · simp [scriptMain, hk, hr, preRunEvents, warningReport, isAgentRun,
        List.countP_cons, List.countP_append, List.countP_nil]
    · simp [scriptMain, hk, hr, preRunEvents, warningReport]
    · simp [preRunEvents]
    · simp [preRunEvents, isReport, List.countP_cons, List.countP_append, List.countP_nil]
    · simp [warningReport, isReport]

/-- Witness for C8 at the spec example result. -/
theorem c8_run_once_sleep_before_report_witness :
    pyTruthy (some "AIzaTest") = true ∧
    ((scriptMain "https://example-developer.pl/oferta" (some "AIzaTest")
        (Except.ok (some "450 000 PLN"))).events.countP isAgentRun = 1 ∧
      ∃ l₁ l₂, (scriptMain "https://example-developer.pl/oferta" (some "AIzaTest")
          (Except.ok (some "450 000 PLN"))).events = l₁ ++ Event.sleep 10 :: l₂ ∧
        Event.agentRunCall ∈ l₁ ∧ l₁.countP isReport = 0 ∧ l₂.all isReport = true) :=
  ⟨by decide,
    c8_run_once_sleep_before_report "https://example-developer.pl/oferta" "AIzaTest"
      (some "450 000 PLN") (by decide)⟩

/-- C9: the credential value influences the run only through its
truthiness: any two environment values of `GOOGLE_API_KEY` with equal
truthiness — in particular any two distinct non-empty keys — produce
identical run outcomes for the same URL and agent behaviour. -/
theorem c9_key_truthiness_only (url : String) (a b : Option String)
    (agent : Except Unit (Option String)) (h : pyTruthy a = pyTruthy b) :
    scriptMain url a agent = scriptMain url b agent := by
  unfold scriptMain
  rw [h]

/-- Witness for C9 with two distinct non-empty keys. -/
theorem c9_key_truthiness_only_witness :
    pyTruthy (some "first-secret-key") = pyTruthy (some "second-secret-key") ∧
    scriptMain "https://example-developer.pl/oferta" (some "first-secret-key")
        (Except.ok (some "450 000 PLN"))
      = scriptMain "https://example-developer.pl/oferta" (some "second-secret-key")
        (Except.ok (some "450 000 PLN")) :=
  ⟨by decide,
    c9_key_truthiness_only "https://example-developer.pl/oferta"
      (some "first-secret-key") (some "second-secret-key")
      (Except.ok (some "450 000 PLN")) (by decide)⟩

/-- C10: every invocation of `main` that returns normally hands exactly
one record to the results-file sink — one from the success branch or
one from the warning branch, never zero and never more than one. -/
theorem c10_exactly_one_file_record (url : String) (apiKey : Option String)
    (agent : Except Unit (Option String))
    (h : (scriptMain url apiKey agent).error = none) :
    (scriptMain url apiKey agent).events.countP isFileSink = 1 := by
  by_cases hk : pyTruthy apiKey = true
  · cases agent with
    | error e => simp [scriptMain, hk] at h
    | ok r =>
      by_cases hr : pyTruthy r = true
      · simp [scriptMain, hk, hr, preRunEvents, successReport, isFileSink,
          List.countP_cons, List.countP_append, List.countP_nil]
      · simp only [Bool.not_eq_true] at hr
        simp [scriptMain, hk, hr, preRunEvents, warningReport, isFileSink,
          List.countP_cons, List.countP_append, List.countP_nil]
  · simp only [Bool.not_eq_true] at hk
    simp [scriptMain, hk] at h

/-- Witness for C10 in the success branch. -/
theorem c10_exactly_one_file_record_witness :
    (scriptMain "https://example-developer.pl/oferta" (some "AIzaTest")
        (Except.ok (some "450 000 PLN"))).error = none ∧
    (scriptMain "https://example-developer.pl/oferta" (some "AIzaTest")
        (Except.ok (some "450 000 PLN"))).events.countP isFileSink = 1 :=
  ⟨by decide,
    c10_exactly_one_file_record "https://example-developer.pl/oferta" (some "AIzaTest")
      (Except.ok (some "450 000 PLN")) (by decide)⟩
